import Mathlib

/-!
Shallow embedding of the identity / credential subsystem of the
FastAPI-boilerplate repository (services/user.py, services/request_pwd.py,
services/google_oauth.py, routes/user.py), together with theorems settling
the frozen claims about it.

Time is modelled as a natural number of epoch seconds.  HS256 JWT encoding
(python-jose) is deterministic and injective on the payload for a fixed
signing key, so an encoded token string is modelled by its claim set plus
the key it was signed with; equality of these structures is bit-for-bit
equality of the token strings.
-/

/-- Configuration fields used by the token subsystem (api/core/config.py,
class Settings).  Durations keep the units of the source: minutes for the
access token, days for the refresh token. -/
structure Settings where
  SECRET_KEY : String
  ACCESS_TOKEN_EXPIRE_MINUTES : Nat
  JWT_REFRESH_EXPIRY : Nat
deriving DecidableEq, Repr

/-- Claim set of a bearer JWT as built by create_access_token /
create_refresh_token: keys user_id, exp, type.  A token decoded from the
wild may lack user_id or the type key, hence the options. -/
structure JwtPayload where
  user_id : Option String
  exp : Nat
  type_claim : Option String
deriving DecidableEq, Repr

/-- An encoded JWT: its payload plus the key that signed it (deterministic
encoding, see module comment). -/
structure JwtToken where
  payload : JwtPayload
  key : String
deriving DecidableEq, Repr

/-- Failures raised by jose.jwt.decode, all subclasses of JWTError. -/
inductive JwtError where
  | badSignature
  | expiredSignature
deriving DecidableEq, Repr

/-- Model of jose.jwt.encode(data, key, algorithm). -/
def jwtEncode (payload : JwtPayload) (key : String) : JwtToken :=
  ⟨payload, key⟩

/-- Model of jose.jwt.decode(token, key, algorithms): signature check first,
then the exp claim is rejected exactly when exp < now (leeway 0). -/
def jwtDecode (tok : JwtToken) (key : String) (now : Nat) : Except JwtError JwtPayload :=
  if tok.key = key then
    if tok.payload.exp < now then .error .expiredSignature
    else .ok tok.payload
  else .error .badSignature

/-- Model of fastapi.HTTPException: the status code and detail string. -/
structure HTTPError where
  statusCode : Nat
  detail : String
deriving DecidableEq, Repr

/-- Schema TokenData (schemas/user.py): the id carried by a verified token. -/
structure TokenData where
  id : String
deriving DecidableEq, Repr

/-- UserService.create_access_token: payload user_id, exp = now + configured
minutes, type = access, signed with SECRET_KEY. -/
def UserService.create_access_token (s : Settings) (user_id : String) (now : Nat) : JwtToken :=
  jwtEncode ⟨some user_id, now + 60 * s.ACCESS_TOKEN_EXPIRE_MINUTES, some "access"⟩ s.SECRET_KEY

/-- UserService.create_refresh_token: payload user_id, exp = now + configured
days, type = refresh, signed with SECRET_KEY. -/
def UserService.create_refresh_token (s : Settings) (user_id : String) (now : Nat) : JwtToken :=
  jwtEncode ⟨some user_id, now + 86400 * s.JWT_REFRESH_EXPIRY, some "refresh"⟩ s.SECRET_KEY

/-- UserService.verify_access_token: decode (JWTError becomes the supplied
credentials_exception), reject a missing user_id with the
credentials_exception, reject type == "refresh" with HTTP 400
"Refresh token not allowed", otherwise return TokenData(id=user_id).
Any other value of the type key (or its absence) is accepted. -/
def UserService.verify_access_token (s : Settings) (access_token : JwtToken)
    (credentials_exception : HTTPError) (now : Nat) : Except HTTPError TokenData :=
  match jwtDecode access_token s.SECRET_KEY now with
  | .error _ => .error credentials_exception
  | .ok payload =>
    match payload.user_id with
    | none => .error credentials_exception
    | some uid =>
      if payload.type_claim = some "refresh" then
        .error ⟨400, "Refresh token not allowed"⟩
      else
        .ok ⟨uid⟩

/-- UserService.verify_refresh_token: same shape as verify_access_token but
rejecting only type == "access" with HTTP 400 "Access token not allowed". -/
def UserService.verify_refresh_token (s : Settings) (refresh_token : JwtToken)
    (credentials_exception : HTTPError) (now : Nat) : Except HTTPError TokenData :=
  match jwtDecode refresh_token s.SECRET_KEY now with
  | .error _ => .error credentials_exception
  | .ok payload =>
    match payload.user_id with
    | none => .error credentials_exception
    | some uid =>
      if payload.type_claim = some "access" then
        .error ⟨400, "Access token not allowed"⟩
      else
        .ok ⟨uid⟩

/-- UserService.refresh_access_token: verify the presented token as a refresh
token (credentials_exception HTTP 401 "Refresh token expired"), then mint a
fresh access/refresh pair for the same user id at the current time. -/
def UserService.refresh_access_token (s : Settings) (current_refresh_token : JwtToken)
    (now : Nat) : Except HTTPError (JwtToken × JwtToken) :=
  match UserService.verify_refresh_token s current_refresh_token ⟨401, "Refresh token expired"⟩ now with
  | .error e => .error e
  | .ok token =>
    .ok (UserService.create_access_token s token.id now,
         UserService.create_refresh_token s token.id now)

/-- Schema Tokens (schemas/google_oauth.py). -/
structure Tokens where
  access_token : JwtToken
  refresh_token : JwtToken
  token_type : String
deriving DecidableEq, Repr

/-- GoogleOauthServices.generate_tokens: builds BOTH fields of the returned
pair with user_service.create_access_token (the refresh_token line also
calls create_access_token in the source). -/
def GoogleOauthServices.generate_tokens (s : Settings) (user_id : String) (now : Nat) : Tokens :=
  ⟨UserService.create_access_token s user_id now,
   UserService.create_access_token s user_id now,
   "bearer"⟩

/-- Abstract interface to passlib's bcrypt CryptContext: hashing embeds a
random salt and lives outside the program, so the pair of functions is a
parameter of the embedding; verifyF recomputes and compares. -/
structure PwdContext where
  hashF : String → String
  verifyF : String → String → Bool

/-- Columns of the users table consulted by the claims (models/user.py):
password is nullable (external-identity accounts have none), is_deleted is
the tombstone flag, last_login the last-activity timestamp. -/
structure UserRec where
  id : String
  email : String
  password : Option String
  is_deleted : Bool
  last_login : Option Nat
deriving DecidableEq, Repr

/-- Failure signals of the lifecycle functions: an HTTPException, or the
uncaught python TypeError passlib raises when the stored hash is None. -/
inductive PyFailure where
  | http (e : HTTPError)
  | typeError
deriving DecidableEq, Repr

/-- UserService.verify_password: pwd_context.verify(secret=password, hash);
passlib raises a TypeError when the stored hash is None. -/
def UserService.verify_password (ctx : PwdContext) (password : String)
    (stored : Option String) : Except PyFailure Bool :=
  match stored with
  | none => .error .typeError
  | some h => .ok (ctx.verifyF password h)

/-- UserService.authenticate_user: look the user up by email only (no
is_deleted filter), raise HTTP 400 "Invalid user credentials" both when the
email is absent and when the password fails to verify, otherwise
update_last_login and return the user. -/
def UserService.authenticate_user (ctx : PwdContext) (db : List UserRec)
    (email password : String) (now : Nat) : Except PyFailure UserRec :=
  match db.find? (fun u => u.email == email) with
  | none => .error (.http ⟨400, "Invalid user credentials"⟩)
  | some u =>
    match UserService.verify_password ctx password u.password with
    | .error e => .error e
    | .ok false => .error (.http ⟨400, "Invalid user credentials"⟩)
    | .ok true => .ok { u with last_login := some now }

/-- Dictionary returned by a successful change_password call. -/
structure ChangePwdResult where
  oldPassword : String
  newPassword : String
  confirmNewPassword : String
deriving DecidableEq, Repr

/-- Tail of UserService.change_password shared by both entry paths: verify
the old password against the stored hash (HTTP 400 "Incorrect old
password." on failure), check the confirmation, then store the new hash.
The first component of the result is the user row as committed when the
call finishes, normally or by raising. -/
def UserService.change_password_rest (ctx : PwdContext)
    (old_password new_password confirm_new_password : String)
    (u : UserRec) (stored : String) : UserRec × Except HTTPError ChangePwdResult :=
  if ctx.verifyF old_password stored = false then
    (u, .error ⟨400, "Incorrect old password."⟩)
  else if new_password ≠ confirm_new_password then
    (u, .error ⟨400, "New password and confirmation do not match."⟩)
  else
    ({ u with password := some (ctx.hashF new_password) },
     .ok ⟨old_password, ctx.hashF new_password, confirm_new_password⟩)

/-- UserService.change_password.  When the account has no stored hash, the
source handles first-time set-up (a supplied old password is an error, new
must match confirmation, the new hash is committed) and then FALLS THROUGH,
with no return, into the normal path, which re-verifies old_password
against the hash that was just stored. -/
def UserService.change_password (ctx : PwdContext)
    (old_password new_password confirm_new_password : String)
    (u : UserRec) : UserRec × Except HTTPError ChangePwdResult :=
  match u.password with
  | none =>
    if old_password ≠ "" then
      (u, .error ⟨400, "You do not have an existing password. Please set up a new password instead."⟩)
    else if new_password ≠ confirm_new_password then
      (u, .error ⟨400, "New password and confirmation do not match."⟩)
    else
      UserService.change_password_rest ctx old_password new_password confirm_new_password
        { u with password := some (ctx.hashF new_password) } (ctx.hashF new_password)
  | some h =>
    UserService.change_password_rest ctx old_password new_password confirm_new_password u h

/-- A token produced by itsdangerous URLSafeTimedSerializer: the signed
payload, the salt and key used, and the embedded issuance timestamp.  The
encoding is deterministic for a fixed key and salt, so structure equality
models string equality. -/
structure LinkToken where
  payload : String
  salt : String
  key : String
  issued_at : Nat
deriving DecidableEq, Repr

/-- Model of URLSafeTimedSerializer(secret).dumps(payload, salt). -/
def serializer_dumps (secret payload salt : String) (now : Nat) : LinkToken :=
  ⟨payload, salt, secret, now⟩

/-- Model of URLSafeTimedSerializer(secret).loads(token, salt, max_age):
BadSignature on a key or salt mismatch, SignatureExpired when the token is
older than max_age seconds, both mapped to none by the caller. -/
def serializer_loads (secret : String) (tok : LinkToken) (salt : String)
    (max_age now : Nat) : Option String :=
  if tok.key = secret ∧ tok.salt = salt ∧ now ≤ tok.issued_at + max_age then
    some tok.payload
  else
    none

/-- create_reset_token (services/request_pwd.py): serializer.dumps(email,
salt=SECRET_KEY).  Used for BOTH password-reset links and magic links:
RequestPasswordService.create is the single issuance path for the two
flows, and neither embeds a purpose tag. -/
def create_reset_token (s : Settings) (email : String) (now : Nat) : LinkToken :=
  serializer_dumps s.SECRET_KEY email s.SECRET_KEY now

/-- verify_reset_token: serializer.loads with salt=SECRET_KEY and the
default max_age of 3600 seconds; any BadSignature or SignatureExpired
yields None. -/
def verify_reset_token (s : Settings) (token : LinkToken) (now : Nat) : Option String :=
  serializer_loads s.SECRET_KEY token s.SECRET_KEY 3600 now

/-- RequestPasswordService.verify_magic_link: verify_reset_token, then the
user lookup by the recovered email. -/
def RequestPasswordService.verify_magic_link (s : Settings) (db : List UserRec)
    (token : LinkToken) (now : Nat) : Except HTTPError UserRec :=
  match verify_reset_token s token now with
  | none => .error ⟨400, "Invalid or expired token"⟩
  | some email =>
    match db.find? (fun u => u.email == email) with
    | none => .error ⟨404, "User not found"⟩
    | some u => .ok u

/-- RequestPasswordService.reset_password: verify_reset_token, user lookup,
confirmation check, then commit the new hash; the ok value is the updated
user row. -/
def RequestPasswordService.reset_password (ctx : PwdContext) (s : Settings)
    (db : List UserRec) (token : LinkToken) (new_password confirm_password : String)
    (now : Nat) : Except HTTPError UserRec :=
  match verify_reset_token s token now with
  | none => .error ⟨400, "Invalid or expired token"⟩
  | some email =>
    match db.find? (fun u => u.email == email) with
    | none => .error ⟨404, "User not found"⟩
    | some u =>
      if new_password ≠ confirm_password then
        .error ⟨400, "Passwords do not match"⟩
      else
        .ok { u with password := some (ctx.hashF new_password) }

/-- Per-connection entry of the SSE registry (routes/user.py state_map):
the two-element list [update_state, active_state] of 0/1 integers. -/
structure ConnState where
  update_state : Nat
  active_state : Nat
deriving DecidableEq, Repr

/-- The process-local registry state_map, an insertion-ordered mapping from
connection key to entry. -/
abbrev StateMap := List (String × ConnState)

/-- reset_connection_active_status (routes/user.py): set every entry's
active_state to 0.  Called from event_generator when a new stream opens,
not from the ORM change listener. -/
def reset_connection_active_status (m : StateMap) : StateMap :=
  m.map (fun kv => (kv.1, ⟨kv.2.update_state, 0⟩))

/-- remove_inactive_connections: delete every entry whose active_state is 0. -/
def remove_inactive_connections (m : StateMap) : StateMap :=
  m.filter (fun kv => !(kv.2.active_state == 0))

/-- orm_event_listener (the on_change broadcast hook, registered for User
after_insert / after_update): remove_inactive_connections, then set every
remaining entry to [1, 1]. -/
def orm_event_listener (m : StateMap) : StateMap :=
  (remove_inactive_connections m).map (fun kv => (kv.1, ⟨1, 1⟩))

/-- On-change behaviour as claim C8 words it, for comparison with
orm_event_listener: first reset every entry's alive flag to false, then
purge every entry whose alive flag is false at that moment, then set every
remaining entry to dirty and alive. -/
def on_change_as_claimed (m : StateMap) : StateMap :=
  (remove_inactive_connections (reset_connection_active_status m)).map
    (fun kv => (kv.1, ⟨1, 1⟩))

/-- Concrete configuration used by witnesses. -/
def demoSettings : Settings :=
  ⟨"supersecret", 30, 7⟩

/-- Concrete stand-in password context used by witnesses and concrete
counterexamples: the "hash" is a marked copy of the password and
verification compares against it. -/
def demoCtx : PwdContext :=
  ⟨fun p => String.append "bcrypt$" p, fun p h => h == String.append "bcrypt$" p⟩

/-- Concrete account with a stored password hash, used by witnesses. -/
def alice : UserRec :=
  ⟨"user-1", "alice@example.com", some (demoCtx.hashF "secret123"), false, none⟩

/-- Concrete external-identity account with no stored hash. -/
def sociallyRegisteredUser : UserRec :=
  ⟨"user-2", "bob@example.com", none, false, none⟩

/-- Concrete tombstoned account whose password still verifies. -/
def deletedCarol : UserRec :=
  ⟨"user-3", "carol@example.com", some (demoCtx.hashF "pw123"), true, none⟩

/-- Concrete registry used by the C8 witness: one connection that has
ticked since the last reset, one that has not. -/
def demoStateMap : StateMap :=
  [("connection_0", ⟨0, 1⟩), ("connection_1", ⟨0, 0⟩)]

/-- Helper: an unexpired token minted by create_access_token passes
verify_access_token and yields its subject id. -/
theorem verify_access_of_create_access (s : Settings) (uid : String) (cred : HTTPError)
    (t now : Nat) (h : now ≤ t + 60 * s.ACCESS_TOKEN_EXPIRE_MINUTES) :
    UserService.verify_access_token s (UserService.create_access_token s uid t) cred now =
      .ok ⟨uid⟩ := by
  have hc : ¬ (t + 60 * s.ACCESS_TOKEN_EXPIRE_MINUTES < now) := by omega
  simp [UserService.verify_access_token, UserService.create_access_token, jwtEncode,
    jwtDecode, hc]

/-- Helper: an unexpired token minted by create_refresh_token passes
verify_refresh_token and yields its subject id. -/
theorem verify_refresh_of_create_refresh (s : Settings) (uid : String) (cred : HTTPError)
    (t now : Nat) (h : now ≤ t + 86400 * s.JWT_REFRESH_EXPIRY) :
    UserService.verify_refresh_token s (UserService.create_refresh_token s uid t) cred now =
      .ok ⟨uid⟩ := by
  have hc : ¬ (t + 86400 * s.JWT_REFRESH_EXPIRY < now) := by omega
  simp [UserService.verify_refresh_token, UserService.create_refresh_token, jwtEncode,
    jwtDecode, hc]

/-- Claim C7: verifying the token produced by create_access_token, before its
expiry and with the same secret, succeeds and returns exactly the subject id. -/
theorem access_token_round_trip (s : Settings) (uid : String) (cred : HTTPError)
    (t now : Nat) (h : now ≤ t + 60 * s.ACCESS_TOKEN_EXPIRE_MINUTES) :
    UserService.verify_access_token s (UserService.create_access_token s uid t) cred now =
      .ok ⟨uid⟩ :=
  verify_access_of_create_access s uid cred t now h

/-- Witness for C7 at a concrete input. -/
theorem access_token_round_trip_witness :
    (0 ≤ 0 + 60 * demoSettings.ACCESS_TOKEN_EXPIRE_MINUTES) ∧
    UserService.verify_access_token demoSettings
      (UserService.create_access_token demoSettings "user-1" 0) ⟨401, "nope"⟩ 0 =
      .ok ⟨"user-1"⟩ :=
  ⟨by decide, access_token_round_trip demoSettings "user-1" ⟨401, "nope"⟩ 0 0 (by decide)⟩

/-- Claim C1: cross-purpose rejection in both directions.  An unexpired
refresh token presented to verify_access_token fails with HTTP 400
"Refresh token not allowed", and an unexpired access token presented to
verify_refresh_token fails with HTTP 400 "Access token not allowed";
neither is accepted. -/
theorem cross_purpose_rejection (s : Settings) (uid : String) (cred : HTTPError)
    (tr ta nr na : Nat)
    (hr : nr ≤ tr + 86400 * s.JWT_REFRESH_EXPIRY)
    (ha : na ≤ ta + 60 * s.ACCESS_TOKEN_EXPIRE_MINUTES) :
    UserService.verify_access_token s (UserService.create_refresh_token s uid tr) cred nr =
      .error ⟨400, "Refresh token not allowed"⟩ ∧
    UserService.verify_refresh_token s (UserService.create_access_token s uid ta) cred na =
      .error ⟨400, "Access token not allowed"⟩ := by
  have hcr : ¬ (tr + 86400 * s.JWT_REFRESH_EXPIRY < nr) := by omega
  have hca : ¬ (ta + 60 * s.ACCESS_TOKEN_EXPIRE_MINUTES < na) := by omega
  constructor
  · simp [UserService.verify_access_token, UserService.create_refresh_token, jwtEncode,
      jwtDecode, hcr]
  · simp [UserService.verify_refresh_token, UserService.create_access_token, jwtEncode,
      jwtDecode, hca]

/-- Witness for C1 at a concrete input. -/
theorem cross_purpose_rejection_witness :
    (5 ≤ 0 + 86400 * demoSettings.JWT_REFRESH_EXPIRY) ∧
    (5 ≤ 0 + 60 * demoSettings.ACCESS_TOKEN_EXPIRE_MINUTES) ∧
    (UserService.verify_access_token demoSettings
        (UserService.create_refresh_token demoSettings "user-1" 0) ⟨401, "nope"⟩ 5 =
      .error ⟨400, "Refresh token not allowed"⟩ ∧
     UserService.verify_refresh_token demoSettings
        (UserService.create_access_token demoSettings "user-1" 0) ⟨401, "nope"⟩ 5 =
      .error ⟨400, "Access token not allowed"⟩) :=
  ⟨by decide, by decide,
   cross_purpose_rejection demoSettings "user-1" ⟨401, "nope"⟩ 0 0 5 5 (by decide) (by decide)⟩

/-- Claim C2: a token signed with the configured secret whose payload has a
non-null user_id but whose type claim is absent or is any value other than
"refresh" / "access" respectively is accepted by BOTH verifiers, which
return its user_id: each verifier blacklists only the single opposite type
string. -/
theorem untyped_token_accepted_by_both (s : Settings) (uid : String) (e : Nat)
    (ty : Option String) (cred : HTTPError) (now : Nat)
    (hexp : now ≤ e) (hr : ty ≠ some "refresh") (ha : ty ≠ some "access") :
    UserService.verify_access_token s ⟨⟨some uid, e, ty⟩, s.SECRET_KEY⟩ cred now =
      .ok ⟨uid⟩ ∧
    UserService.verify_refresh_token s ⟨⟨some uid, e, ty⟩, s.SECRET_KEY⟩ cred now =
      .ok ⟨uid⟩ := by
  have hc : ¬ (e < now) := by omega
  constructor
  · simp [UserService.verify_access_token, jwtDecode, hc, hr]
  · simp [UserService.verify_refresh_token, jwtDecode, hc, ha]

/-- Witness for C2: a token whose type claim is absent entirely is accepted
by both verifiers. -/
theorem untyped_token_accepted_by_both_witness :
    (0 ≤ 99) ∧ (none : Option String) ≠ some "refresh" ∧ (none : Option String) ≠ some "access" ∧
    (UserService.verify_access_token demoSettings
        ⟨⟨some "user-1", 99, none⟩, demoSettings.SECRET_KEY⟩ ⟨401, "nope"⟩ 0 = .ok ⟨"user-1"⟩ ∧
     UserService.verify_refresh_token demoSettings
        ⟨⟨some "user-1", 99, none⟩, demoSettings.SECRET_KEY⟩ ⟨401, "nope"⟩ 0 = .ok ⟨"user-1"⟩) :=
  ⟨by decide, by decide, by decide,
   untyped_token_accepted_by_both demoSettings "user-1" 99 none ⟨401, "nope"⟩ 0
     (by decide) (by decide) (by decide)⟩

/-- Claim C9: the Google OAuth token generator builds both members of its
pair with create_access_token, so the string it returns as refresh_token
carries type "access" and is always rejected by verify_refresh_token
(HTTP 400 "Access token not allowed" while unexpired, otherwise the
supplied credentials exception) and by refresh_access_token. -/
theorem google_refresh_token_is_access_token (s : Settings) (uid : String)
    (cred : HTTPError) (t now : Nat) :
    (GoogleOauthServices.generate_tokens s uid t).refresh_token =
      UserService.create_access_token s uid t ∧
    UserService.verify_refresh_token s
        (GoogleOauthServices.generate_tokens s uid t).refresh_token cred now =
      .error (if now ≤ t + 60 * s.ACCESS_TOKEN_EXPIRE_MINUTES then
               ⟨400, "Access token not allowed"⟩ else cred) ∧
    UserService.refresh_access_token s
        (GoogleOauthServices.generate_tokens s uid t).refresh_token now =
      .error (if now ≤ t + 60 * s.ACCESS_TOKEN_EXPIRE_MINUTES then
               ⟨400, "Access token not allowed"⟩ else ⟨401, "Refresh token expired"⟩) := by
  refine ⟨rfl, ?_, ?_⟩
  · by_cases h : now ≤ t + 60 * s.ACCESS_TOKEN_EXPIRE_MINUTES
    · have hc : ¬ (t + 60 * s.ACCESS_TOKEN_EXPIRE_MINUTES < now) := by omega
      rw [if_pos h]
      simp [GoogleOauthServices.generate_tokens, UserService.verify_refresh_token,
        UserService.create_access_token, jwtEncode, jwtDecode, hc]
    · have hc : t + 60 * s.ACCESS_TOKEN_EXPIRE_MINUTES < now := by omega
      rw [if_neg h]
      simp [GoogleOauthServices.generate_tokens, UserService.verify_refresh_token,
        UserService.create_access_token, jwtEncode, jwtDecode, hc]
  · by_cases h : now ≤ t + 60 * s.ACCESS_TOKEN_EXPIRE_MINUTES
    · have hc : ¬ (t + 60 * s.ACCESS_TOKEN_EXPIRE_MINUTES < now) := by omega
      rw [if_pos h]
      simp [GoogleOauthServices.generate_tokens, UserService.refresh_access_token,
        UserService.verify_refresh_token, UserService.create_access_token, jwtEncode,
        jwtDecode, hc]
    · have hc : t + 60 * s.ACCESS_TOKEN_EXPIRE_MINUTES < now := by omega
      rw [if_neg h]
      simp [GoogleOauthServices.generate_tokens, UserService.refresh_access_token,
        UserService.verify_refresh_token, UserService.create_access_token, jwtEncode,
        jwtDecode, hc]

/-- Counterexample to claim C3: a refresh call made in the same second as
the old refresh token's issuance returns a refresh token byte-identical to
the old one (same payload, deterministic encoding), so the new refresh
token does not always differ bit-for-bit from the old. -/
theorem refresh_in_same_second_repeats_token :
    UserService.refresh_access_token demoSettings
        (UserService.create_refresh_token demoSettings "user-1" 0) 0 =
      .ok (UserService.create_access_token demoSettings "user-1" 0,
           UserService.create_refresh_token demoSettings "user-1" 0) ∧
    Except.map Prod.snd
        (UserService.refresh_access_token demoSettings
          (UserService.create_refresh_token demoSettings "user-1" 0) 0) =
      .ok (UserService.create_refresh_token demoSettings "user-1" 0) :=
  ⟨rfl, rfl⟩

/-- Claim C3 amended: for an unexpired refresh token issued at second t,
refresh_access_token at a strictly later second verifies the old token and
returns the freshly minted pair for the same subject; the new access token
verifies with purpose access, the new refresh token differs bit-for-bit
from the old, and the old token is not invalidated: it verifies until its
own expiry. -/
theorem rotation_protocol (s : Settings) (uid : String) (t t' : Nat)
    (hlt : t < t') (hvalid : t' ≤ t + 86400 * s.JWT_REFRESH_EXPIRY) :
    UserService.refresh_access_token s (UserService.create_refresh_token s uid t) t' =
      .ok (UserService.create_access_token s uid t',
           UserService.create_refresh_token s uid t') ∧
    UserService.create_refresh_token s uid t' ≠ UserService.create_refresh_token s uid t ∧
    (∀ cred now, now ≤ t' + 60 * s.ACCESS_TOKEN_EXPIRE_MINUTES →
      UserService.verify_access_token s (UserService.create_access_token s uid t') cred now =
        .ok ⟨uid⟩) ∧
    (∀ cred now, now ≤ t + 86400 * s.JWT_REFRESH_EXPIRY →
      UserService.verify_refresh_token s (UserService.create_refresh_token s uid t) cred now =
        .ok ⟨uid⟩) := by
  refine ⟨?_, ?_, ?_, ?_⟩
  · unfold UserService.refresh_access_token
    rw [verify_refresh_of_create_refresh s uid _ t t' hvalid]
  · intro hEq
    have hexp := congrArg (fun tok => tok.payload.exp) hEq
    simp [UserService.create_refresh_token, jwtEncode] at hexp
    omega
  · intro cred now hn
    exact verify_access_of_create_access s uid cred t' now hn
  · intro cred now hn
    exact verify_refresh_of_create_refresh s uid cred t now hn

/-- Witness for the amended C3 at a concrete input. -/
theorem rotation_protocol_witness :
    (0 < 1 ∧ 1 ≤ 0 + 86400 * demoSettings.JWT_REFRESH_EXPIRY) ∧
    UserService.refresh_access_token demoSettings
        (UserService.create_refresh_token demoSettings "user-1" 0) 1 =
      .ok (UserService.create_access_token demoSettings "user-1" 1,
           UserService.create_refresh_token demoSettings "user-1" 1) ∧
    UserService.create_refresh_token demoSettings "user-1" 1 ≠
      UserService.create_refresh_token demoSettings "user-1" 0 ∧
    UserService.verify_access_token demoSettings
        (UserService.create_access_token demoSettings "user-1" 1) ⟨401, "nope"⟩ 1 =
      .ok ⟨"user-1"⟩ ∧
    UserService.verify_refresh_token demoSettings
        (UserService.create_refresh_token demoSettings "user-1" 0) ⟨401, "nope"⟩ 1 =
      .ok ⟨"user-1"⟩ := by
  have h := rotation_protocol demoSettings "user-1" 0 1 (by decide) (by decide)
  exact ⟨⟨by decide, by decide⟩, h.1, h.2.1, h.2.2.1 ⟨401, "nope"⟩ 1 (by decide),
    h.2.2.2 ⟨401, "nope"⟩ 1 (by decide)⟩

/-- Claim C4, evaluated at the failing input: for an account with no stored
hash, an absent old password and matching new/confirm, change_password
commits the new hash but then still fails with HTTP 400 "Incorrect old
password.", because the no-password branch falls through into the
old-password check instead of returning. -/
theorem change_password_first_time_setup_still_fails :
    UserService.change_password demoCtx "" "newpw1" "newpw1" sociallyRegisteredUser =
      ({ sociallyRegisteredUser with password := some (demoCtx.hashF "newpw1") },
       .error ⟨400, "Incorrect old password."⟩) := rfl

/-- Counterexample to claim C5: the password-reset flow's token for alice
(create_reset_token is the single issuance primitive used by both flows)
is accepted by the magic-link verification routine, and the very same
token is accepted by the password-reset redemption routine: nothing
namespaces the two use-cases. -/
theorem reset_token_redeemable_as_magic_link :
    RequestPasswordService.verify_magic_link demoSettings [alice]
        (create_reset_token demoSettings "alice@example.com" 0) 10 = .ok alice ∧
    RequestPasswordService.reset_password demoCtx demoSettings [alice]
        (create_reset_token demoSettings "alice@example.com" 0) "npw" "npw" 10 =
      .ok { alice with password := some (demoCtx.hashF "npw") } :=
  ⟨rfl, rfl⟩

/-- Claim C5 amended: link tokens are NOT namespaced.  Both use-cases issue
with the same create_reset_token (salt = SECRET_KEY) and verify with the
same verify_reset_token, so within the max-age window a token made for
either flow is accepted both by the magic-link routine and by the reset
redemption routine (mutual redeemability); the distinguishing
namespace/salt the spec requires is absent. -/
theorem link_tokens_share_one_primitive (ctx : PwdContext) (s : Settings)
    (db : List UserRec) (email new_password : String) (t d : Nat) (u : UserRec)
    (hage : d ≤ 3600)
    (hfind : db.find? (fun v => v.email == email) = some u) :
    RequestPasswordService.verify_magic_link s db (create_reset_token s email t) (t + d) =
      .ok u ∧
    RequestPasswordService.reset_password ctx s db (create_reset_token s email t)
        new_password new_password (t + d) =
      .ok { u with password := some (ctx.hashF new_password) } := by
  have hc : t + d ≤ t + 3600 := by omega
  have hv : verify_reset_token s (create_reset_token s email t) (t + d) = some email := by
    simp [verify_reset_token, create_reset_token, serializer_dumps, serializer_loads, hc]
  constructor
  · simp [RequestPasswordService.verify_magic_link, hv, hfind]
  · simp [RequestPasswordService.reset_password, hv, hfind]

/-- Witness for the amended C5 at a concrete input. -/
theorem link_tokens_share_one_primitive_witness :
    (100 ≤ 3600) ∧
    ([alice].find? (fun v => v.email == "alice@example.com") = some alice) ∧
    RequestPasswordService.verify_magic_link demoSettings [alice]
        (create_reset_token demoSettings "alice@example.com" 0) (0 + 100) = .ok alice ∧
    RequestPasswordService.reset_password demoCtx demoSettings [alice]
        (create_reset_token demoSettings "alice@example.com" 0) "npw2" "npw2" (0 + 100) =
      .ok { alice with password := some (demoCtx.hashF "npw2") } := by
  have h := link_tokens_share_one_primitive demoCtx demoSettings [alice]
    "alice@example.com" "npw2" 0 100 alice (by decide) rfl
  exact ⟨by decide, rfl, h.1, h.2⟩

/-- Claim C6: login failure is undifferentiated: a nonexistent email and a
wrong password for an existing account raise the identical HTTP 400
"Invalid user credentials" signal, and a successful login updates the
account's last_login timestamp. -/
theorem login_failure_undifferentiated (ctx : PwdContext) (db : List UserRec)
    (email1 pw1 email2 pw2 : String) (now : Nat) (u : UserRec) (hsh : String)
    (h1 : db.find? (fun v => v.email == email1) = none)
    (h2 : db.find? (fun v => v.email == email2) = some u)
    (h3 : u.password = some hsh)
    (h4 : ctx.verifyF pw2 hsh = false) :
    UserService.authenticate_user ctx db email1 pw1 now =
      .error (.http ⟨400, "Invalid user credentials"⟩) ∧
    UserService.authenticate_user ctx db email2 pw2 now =
      .error (.http ⟨400, "Invalid user credentials"⟩) ∧
    UserService.authenticate_user ctx db email1 pw1 now =
      UserService.authenticate_user ctx db email2 pw2 now ∧
    (∀ pw', ctx.verifyF pw' hsh = true →
      UserService.authenticate_user ctx db email2 pw' now =
        .ok { u with last_login := some now }) := by
  have e1 : UserService.authenticate_user ctx db email1 pw1 now =
      .error (.http ⟨400, "Invalid user credentials"⟩) := by
    simp [UserService.authenticate_user, h1]
  have e2 : UserService.authenticate_user ctx db email2 pw2 now =
      .error (.http ⟨400, "Invalid user credentials"⟩) := by
    simp [UserService.authenticate_user, h2, UserService.verify_password, h3, h4]
  refine ⟨e1, e2, e1.trans e2.symm, ?_⟩
  intro pw' hv
  simp [UserService.authenticate_user, h2, UserService.verify_password, h3, hv]

/-- Witness for C6 at a concrete store. -/
theorem login_failure_undifferentiated_witness :
    ([alice].find? (fun v => v.email == "nobody@example.com") = none) ∧
    ([alice].find? (fun v => v.email == "alice@example.com") = some alice) ∧
    (alice.password = some (demoCtx.hashF "secret123")) ∧
    (demoCtx.verifyF "wrongpw" (demoCtx.hashF "secret123") = false) ∧
    UserService.authenticate_user demoCtx [alice] "nobody@example.com" "x" 42 =
      .error (.http ⟨400, "Invalid user credentials"⟩) ∧
    UserService.authenticate_user demoCtx [alice] "alice@example.com" "wrongpw" 42 =
      .error (.http ⟨400, "Invalid user credentials"⟩) ∧
    UserService.authenticate_user demoCtx [alice] "alice@example.com" "secret123" 42 =
      .ok { alice with last_login := some 42 } := by
  have h := login_failure_undifferentiated demoCtx [alice] "nobody@example.com" "x"
    "alice@example.com" "wrongpw" 42 alice (demoCtx.hashF "secret123") rfl rfl rfl rfl
  exact ⟨rfl, rfl, rfl, rfl, h.1, h.2.1, h.2.2.2 "secret123" rfl⟩

/-- Claim C10: authenticate_user never consults is_deleted, so a tombstoned
account whose email is found and whose password verifies still logs in,
gets its last_login updated, and is returned for token issuance. -/
theorem tombstoned_account_can_login (ctx : PwdContext) (db : List UserRec)
    (email pw : String) (now : Nat) (u : UserRec) (hsh : String)
    (h1 : db.find? (fun v => v.email == email) = some u)
    (h2 : u.is_deleted = true)
    (h3 : u.password = some hsh)
    (h4 : ctx.verifyF pw hsh = true) :
    UserService.authenticate_user ctx db email pw now =
      .ok { u with last_login := some now } := by
  simp [UserService.authenticate_user, h1, UserService.verify_password, h3, h4]

/-- Witness for C10 at a concrete tombstoned account. -/
theorem tombstoned_account_can_login_witness :
    ([deletedCarol].find? (fun v => v.email == "carol@example.com") = some deletedCarol) ∧
    deletedCarol.is_deleted = true ∧
    deletedCarol.password = some (demoCtx.hashF "pw123") ∧
    demoCtx.verifyF "pw123" (demoCtx.hashF "pw123") = true ∧
    UserService.authenticate_user demoCtx [deletedCarol] "carol@example.com" "pw123" 7 =
      .ok { deletedCarol with last_login := some 7 } :=
  ⟨rfl, rfl, rfl, rfl,
   tombstoned_account_can_login demoCtx [deletedCarol] "carol@example.com" "pw123" 7
     deletedCarol (demoCtx.hashF "pw123") rfl rfl rfl rfl⟩

/-- Helper: in a list of key-value pairs with nodup keys, a key determines
its value. -/
theorem value_eq_of_keys_nodup {α β : Type} (l : List (α × β))
    (hnd : (l.map Prod.fst).Nodup) {k : α} {v v' : β}
    (h1 : (k, v) ∈ l) (h2 : (k, v') ∈ l) : v = v' := by
  induction l with
  | nil => cases h1
  | cons a l ih =>
    rw [List.map_cons, List.nodup_cons] at hnd
    rcases List.mem_cons.mp h1 with h1 | h1 <;> rcases List.mem_cons.mp h2 with h2 | h2
    · exact congrArg Prod.snd (h1.trans h2.symm)
    · exfalso
      apply hnd.1
      rw [← h1]
      exact List.mem_map.mpr ⟨(k, v'), h2, rfl⟩
    · exfalso
      apply hnd.1
      rw [← h2]
      exact List.mem_map.mpr ⟨(k, v), h1, rfl⟩
    · exact ih hnd.2 h1 h2

/-- Counterexample to claim C8: at a registry holding one connection that
has ticked (alive), the code's change hook keeps the entry as [1, 1]
because it never resets active flags itself, while the claimed
reset-alive-first-then-purge behaviour would empty the registry: the two
disagree. -/
theorem on_change_does_not_reset_alive_first :
    orm_event_listener [("connection_0", (⟨0, 1⟩ : ConnState))] =
      [("connection_0", ⟨1, 1⟩)] ∧
    on_change_as_claimed [("connection_0", (⟨0, 1⟩ : ConnState))] = [] ∧
    on_change_as_claimed [("connection_0", (⟨0, 1⟩ : ConnState))] ≠
      orm_event_listener [("connection_0", (⟨0, 1⟩ : ConnState))] :=
  ⟨rfl, rfl, by decide⟩

/-- Claim C8 amended: the change hook purges exactly the entries whose
active flag is 0 at the moment it fires and sets every surviving entry to
[1, 1], so immediately afterwards every entry in the map is dirty and
alive; the reset of active flags to 0 happens at stream-open
(event_generator), not inside the change hook. -/
theorem on_change_invariant (m : StateMap)
    (hnd : (m.map Prod.fst).Nodup) :
    (∀ kv, kv ∈ orm_event_listener m → kv.2 = ⟨1, 1⟩) ∧
    (∀ k v, (k, v) ∈ m → v.active_state ≠ 0 → (k, ⟨1, 1⟩) ∈ orm_event_listener m) ∧
    (∀ k v w, (k, v) ∈ m → v.active_state = 0 → (k, w) ∉ orm_event_listener m) := by
  refine ⟨?_, ?_, ?_⟩
  · intro kv hkv
    obtain ⟨a, _, hfa⟩ := List.mem_map.mp hkv
    rw [← hfa]
  · intro k v hm hne
    refine List.mem_map.mpr ⟨(k, v), List.mem_filter.mpr ⟨hm, ?_⟩, rfl⟩
    simp [hne]
  · intro k v w hm h0 hcontra
    obtain ⟨a, ha, hfa⟩ := List.mem_map.mp hcontra
    obtain ⟨ham, hpa⟩ := List.mem_filter.mp ha
    have hk : a.1 = k := congrArg Prod.fst hfa
    have hmem : (k, a.2) ∈ m := by
      rw [← hk]
      exact ham
    have hval := value_eq_of_keys_nodup m hnd hmem hm
    rw [hval, h0] at hpa
    simp at hpa

/-- Witness for the amended C8 at a concrete registry: the live connection
survives as dirty and alive, the stale one is purged. -/
theorem on_change_invariant_witness :
    ((demoStateMap.map Prod.fst).Nodup) ∧
    ("connection_0", (⟨1, 1⟩ : ConnState)) ∈ orm_event_listener demoStateMap ∧
    ("connection_1", (⟨0, 0⟩ : ConnState)) ∉ orm_event_listener demoStateMap ∧
    orm_event_listener demoStateMap = [("connection_0", ⟨1, 1⟩)] := by
  have h := on_change_invariant demoStateMap (by decide)
  refine ⟨by decide, ?_, ?_, rfl⟩
  · exact h.2.1 "connection_0" ⟨0, 1⟩ (by decide) (by decide)
  · exact h.2.2 "connection_1" ⟨0, 0⟩ ⟨0, 0⟩ (by decide) rfl
